import Mathlib

/-!
Shallow embedding of the data pipeline of the Tesla battery dashboard
(src/Dashboard.py and src/pages/01_Performance.py).

Modelling conventions:
* a raw spreadsheet cell is a `String`; a typed numeric cell is an
  `Option ℚ` where `none` models pandas `NaN` (and, where the code folds
  them away, `±inf`);
* a pandas DataFrame is a list of named columns; a column is either still
  of object dtype (`List String`) or already coerced (`List (Option ℚ)`);
* Python exceptions escaping the code (KeyError, ValueError from
  `astype(float)`) are modelled with `Option`/an explicit crash value;
* floating point is modelled with exact rationals: sklearn's
  `LinearRegression` on one feature computes the ordinary-least-squares
  slope `Σ(x-x̄)(y-ȳ)/Σ(x-x̄)²` (minimum-norm slope 0 when the
  denominator vanishes) and intercept `ȳ - slope·x̄`; a float division by
  zero yields a non-finite value, modelled as `none`.
-/

/-- Model of Python `str.strip()`: remove leading and trailing whitespace. -/
def pyStrip (s : String) : String :=
  String.mk (((s.toList.dropWhile Char.isWhitespace).reverse.dropWhile Char.isWhitespace).reverse)

/-- Fueled worker for `strReplace`; replaces every non-overlapping occurrence
of `pat` (taken non-empty) from left to right, as Python `str.replace`. -/
def replaceListAux (pat rep : List Char) : ℕ → List Char → List Char
| 0, cs => cs
| _ + 1, [] => []
| fuel + 1, c :: cs =>
  if pat.isPrefixOf (c :: cs) && !pat.isEmpty then
    rep ++ replaceListAux pat rep fuel ((c :: cs).drop pat.length)
  else
    c :: replaceListAux pat rep fuel cs

/-- Model of Python `str.replace(pat, rep)` / `pandas .str.replace`. -/
def strReplace (s pat rep : String) : String :=
  String.mk (replaceListAux pat.toList rep.toList s.toList.length s.toList)

/-- Numeric value of a list of decimal digit characters (empty list = 0). -/
def digitsVal (ds : List Char) : ℕ :=
  ds.foldl (fun a c => 10 * a + (c.toNat - 48)) 0

/-- First maximal run of decimal digits in a character list, as used by the
pandas `str.extract` call with a digit-run pattern; `none` if no digit occurs. -/
def firstDigitRun : List Char → Option (List Char)
| [] => none
| c :: cs => if c.isDigit then some (c :: cs.takeWhile Char.isDigit) else firstDigitRun cs

/-- Unsigned decimal literal parser: digits with at most one decimal point,
at least one digit overall (accepts forms like `12`, `12.5`, `.5`, `5.`). -/
def parseUDec (cs : List Char) : Option ℚ :=
  let ip := cs.takeWhile Char.isDigit
  match cs.dropWhile Char.isDigit with
  | [] => if ip.isEmpty then none else some ((digitsVal ip : ℕ) : ℚ)
  | '.' :: fp =>
    if fp.all Char.isDigit && !(ip.isEmpty && fp.isEmpty) then
      some (((digitsVal ip : ℕ) : ℚ) + ((digitsVal fp : ℕ) : ℚ) / ((10 : ℚ) ^ fp.length))
    else none
  | _ => none

/-- Model of the numeric coercion performed by Python `float(...)` /
`pd.to_numeric` on plain decimal strings: optional sign, then an unsigned
decimal; anything else fails (`none`). -/
def parseDecimal (s : String) : Option ℚ :=
  match (pyStrip s).toList with
  | '-' :: cs => (parseUDec cs).map (fun q => -q)
  | '+' :: cs => parseUDec cs
  | cs => parseUDec cs

/-- Model of Python `round` on a rational: round half to even. -/
def pyRound (q : ℚ) : ℤ :=
  let f := q.floor
  if q - f < 1 / 2 then f
  else if 1 / 2 < q - f then f + 1
  else if f % 2 = 0 then f else f + 1

/-! ### Header de-duplication (src/Dashboard.py lines 79–94)

The Python loop keeps a list `unique_header` of produced names and a dict
`duplicate_counts` mapping an already-seen (stripped) original name to the
number of its occurrences so far.  A repeated name is suffixed with
`_<count>`.  When a header equals a name that was only ever *synthesized*
(never seen as an original), the line `duplicate_counts[col] += 1` raises a
`KeyError`; this crash is modelled as `none`. -/

/-- Replace the value of the first entry with key `key` (no-op if absent),
modelling a Python dict update on an existing key. -/
def bumpCount : List (String × ℕ) → String → ℕ → List (String × ℕ)
| [], _, _ => []
| (k, v) :: t, key, n => if k = key then (k, n) :: t else (k, v) :: bumpCount t key n

/-- Dict lookup for the duplicate-counts association list. -/
def lookupCount : List (String × ℕ) → String → Option ℕ
| [], _ => none
| (k, v) :: t, key => if k = key then some v else lookupCount t key

/-- One iteration of the de-duplication loop body, on the stripped name
`pyStrip col0` (the loop's local `col = col.strip()`). -/
def dedupStep (st : List String × List (String × ℕ)) (col0 : String) :
    Option (List String × List (String × ℕ)) :=
  if pyStrip col0 ∈ st.1 then
    match lookupCount st.2 (pyStrip col0) with
    | none => none
    | some n =>
      some (st.1 ++ [pyStrip col0 ++ "_" ++ toString (n + 1)],
        bumpCount st.2 (pyStrip col0) (n + 1))
  else
    some (st.1 ++ [pyStrip col0], st.2 ++ [(pyStrip col0, 1)])

/-- Run the de-duplication loop over the kept headers. -/
def dedupRun : List String × List (String × ℕ) → List String →
    Option (List String × List (String × ℕ))
| st, [] => some st
| st, col :: rest =>
  match dedupStep st col with
  | none => none
  | some st' => dedupRun st' rest

/-- Header de-duplication as in `fetch_data` (`none` = KeyError crash). -/
def fixDuplicateHeaders (hs : List String) : Option (List String) :=
  (dedupRun ([], []) hs).map Prod.fst

/-- Modelled from the spec's words, for comparison with the code
(`fixDuplicateHeaders`): walk the (stripped) headers in order; the first
occurrence of a name is kept as-is, the k-th further occurrence of the same
name is suffixed `_<k+1>`, counting occurrences among the predecessors. -/
def specFrom (seen : List String) : List String → List String
| [] => []
| t :: rest =>
  (if seen.count t = 0 then t else t ++ "_" ++ toString (seen.count t + 1)) ::
    specFrom (seen ++ [t]) rest

/-- Specification-side de-duplication (see `specFrom`). -/
def specDedup (hs : List String) : List String :=
  specFrom [] (hs.map pyStrip)

/-! ### Column selection and raw-record parsing (src/Dashboard.py lines 58–141) -/

/-- Spreadsheet-position codes explicitly excluded from the header
(src/Dashboard.py line 68). -/
def excludeColumns : List String := ["B", "G", "H", "I", "J", "O", "P", "W", "X", "Y"]

/-- Model of `col.startswith('_')`. -/
def startsWithUnderscore (c : String) : Bool :=
  match c.toList with
  | '_' :: _ => true
  | _ => false

/-- Kept headers: drop empty names, names starting with an underscore, and the
explicit exclusion set (src/Dashboard.py line 71). -/
def keptHeader (header : List String) : List String :=
  header.filter (fun c => !(c == "") && !(startsWithUnderscore c) && !(excludeColumns.contains c))

/-- Column indices of the kept headers, each resolved with Python
`list.index`, i.e. the index of the FIRST occurrence of the name
(src/Dashboard.py line 74; the comprehension's `if col in header` guard is
always true since the names are drawn from the header). -/
def keepIdx (header : List String) : List ℕ :=
  (keptHeader header).map (fun c => header.indexOf c)

/-- Projection of one raw row onto the kept column indices
(src/Dashboard.py line 77; rows are assumed rectangular, missing cells
default to `""`). -/
def selectCols (header row : List String) : List String :=
  (keepIdx header).map (fun i => row.getD i "")

/-- A DataFrame column: still raw text, or already coerced to numbers
(`none` = NaN). -/
inductive ColData
| strs (vals : List String)
| nums (vals : List (Option ℚ))
deriving DecidableEq

/-- A DataFrame: named columns in order. -/
abbrev Frame := List (String × ColData)

/-- Result of `fetch_data`: the explicit empty-result signal returned when
`Username` is missing, an uncaught exception, or a typed dataset together
with the resolved battery-pack-status column name. -/
inductive FetchResult
| emptyResult
| crash
| ok (df : Frame) (batteryPackCol : Option String)
deriving DecidableEq

/-- Replace the (first) column with the given name. -/
def setCol : Frame → String → ColData → Frame
| [], _, _ => []
| (n, v) :: t, name, nv => if n = name then (n, nv) :: t else (n, v) :: setCol t name nv

/-- Apply a transformation to a raw-text column.  A missing column (KeyError)
or an already-numeric column (`.str` accessor failure) and a failing
transformation (e.g. `astype(float)` on an unparsable value) all model a
Python exception, i.e. `none`. -/
def mapStrColM (df : Frame) (name : String) (f : List String → Option ColData) : Option Frame :=
  match df.lookup name with
  | some (.strs vs) => (f vs).map (setCol df name)
  | some (.nums _) => none
  | none => none

/-- Per-cell coercion of the `Age` column (src/Dashboard.py line 104):
strip `" Months"`, comma to dot, empty to NaN, then `astype(float)` which
raises on an unparsable value (outer `none`). -/
def ageCell (s : String) : Option (Option ℚ) :=
  let t := strReplace (strReplace s " Months" "") "," "."
  if t = "" then some none else (parseDecimal t).map some

/-- Per-cell coercion of the `Odometer` column (src/Dashboard.py line 107):
remove commas, extract the first run of digits, value NaN when none. -/
def odoCell (s : String) : Option ℚ :=
  (firstDigitRun (strReplace s "," "").toList).map (fun ds => ((digitsVal ds : ℕ) : ℚ))

/-- Final coercion of a `Degradation` cell after the global comma
normalization and the forced leading minus sign (src/Dashboard.py lines
122 and 132): fold an exact `-0.0%` to NaN, strip `%`, numeric-coerce. -/
def degradationCell (s : String) : Option ℚ :=
  if s = "-0.0%" then none else parseDecimal (strReplace s "%" "")

/-- Full per-cell parse of a raw `Degradation` cell: comma to dot
(src/Dashboard.py line 113), forced leading minus (line 119), then
`degradationCell` (lines 122/132). -/
def degradationCellParse (s : String) : Option ℚ :=
  degradationCell ("-" ++ strReplace s "," ".")

/-- Per-cell coercion of `Rated Range` (src/Dashboard.py lines 125–126). -/
def ratedRangeCell (s : String) : Option ℚ :=
  parseDecimal (strReplace s " km" "")

/-- Per-cell coercion of `Capacity Net Now` (src/Dashboard.py lines 128–129). -/
def capacityCell (s : String) : Option ℚ :=
  parseDecimal (strReplace (strReplace s " kWh" "") "," ".")

/-- Per-cell coercion of `Daily SOC Limit` / `DC Ratio`
(src/Dashboard.py lines 135–136): strip `%`, empty to NaN, `astype(float)`
raising on an unparsable value (outer `none`). -/
def pctCell (s : String) : Option (Option ℚ) :=
  let t := strReplace s "%" ""
  if t = "" then some none else (parseDecimal t).map some

/-- Model of `col.startswith('Battery Pack')` (src/Dashboard.py line 97). -/
def startsWithBatteryPack (c : String) : Bool :=
  ("Battery Pack".toList).isPrefixOf c.toList

/-- Build the DataFrame from the de-duplicated header and the projected data
rows (src/Dashboard.py line 94). -/
def buildFrame (uh : List String) (dataRows : List (List String)) : Frame :=
  uh.enum.map (fun kn => (kn.2, ColData.strs (dataRows.map (fun r => r.getD kn.1 ""))))

/-- Comma-to-dot normalization on every still-raw column except the
battery-pack-status column (src/Dashboard.py lines 110–113). -/
def commaToDot (bpc : Option String) (df : Frame) : Frame :=
  df.map (fun nc =>
    match nc.2 with
    | .strs vs =>
      if bpc = some nc.1 then nc else (nc.1, .strs (vs.map (fun s => strReplace s "," ".")))
    | .nums _ => nc)

/-- Forced leading minus sign on the `Degradation` column when present
(src/Dashboard.py lines 116–119). -/
def negateDegradation (df : Frame) : Frame :=
  match df.lookup "Degradation" with
  | some (.strs vs) => setCol df "Degradation" (.strs (vs.map (fun s => "-" ++ s)))
  | _ => df

/-- Model of `fetch_data` (src/Dashboard.py lines 58–141) on the fetched
sheet given as header row plus data rows.  The default empty
`username_filter` of the call site is modelled (no row filter). -/
def fetch_data (data : List (List String)) : FetchResult :=
  match data with
  | [] => .crash
  | header :: dataRows =>
    if "Username" ∈ header then
      match fixDuplicateHeaders (keptHeader header) with
      | none => .crash
      | some uh =>
        let df0 := buildFrame uh (dataRows.map (selectCols header))
        let bpc := (uh.filter (fun c => startsWithBatteryPack c)).head?
        match mapStrColM df0 "Age" (fun vs => (vs.mapM ageCell).map ColData.nums) with
        | none => .crash
        | some df1 =>
          match mapStrColM df1 "Odometer"
              (fun vs => some (ColData.nums (vs.map odoCell))) with
          | none => .crash
          | some df2 =>
            let df3 := negateDegradation (commaToDot bpc df2)
            match mapStrColM df3 "Degradation"
                (fun vs => some (ColData.nums (vs.map degradationCell))) with
            | none => .crash
            | some df4 =>
              match mapStrColM df4 "Rated Range"
                  (fun vs => some (ColData.nums (vs.map ratedRangeCell))) with
              | none => .crash
              | some df5 =>
                match mapStrColM df5 "Capacity Net Now"
                    (fun vs => some (ColData.nums (vs.map capacityCell))) with
                | none => .crash
                | some df6 =>
                  match mapStrColM df6 "Daily SOC Limit"
                      (fun vs => (vs.mapM pctCell).map ColData.nums) with
                  | none => .crash
                  | some df7 =>
                    match mapStrColM df7 "DC Ratio"
                        (fun vs => (vs.mapM pctCell).map ColData.nums) with
                    | none => .crash
                    | some df8 => .ok df8 bpc
    else .emptyResult

/-- Header of the C7 scenario: `Username` present, `Battery` absent, all
columns referenced by the coercion steps present. -/
def noBatteryHeader : List String :=
  ["Username", "Age", "Odometer", "Rated Range", "Capacity Net Now",
   "Degradation", "Daily SOC Limit", "DC Ratio"]

/-- One raw data row for the C7 scenario. -/
def noBatteryRow : List String :=
  ["user1", "10 Months", "21000 km", "450 km", "70,5 kWh", "5,0%", "80%", "20%"]

/-- Raw sheet of the C7 scenario. -/
def noBatteryData : List (List String) := [noBatteryHeader, noBatteryRow]

/-- Recognizer for a typed dataset outcome of `fetch_data`. -/
def isDatasetResult : FetchResult → Bool
| .ok _ _ => true
| _ => false

/-! ### SOH 70% projection (src/Dashboard.py lines 619–710)

sklearn's `LinearRegression` on a single feature is ordinary least squares:
slope `Σ(x-x̄)(y-ȳ)/Σ(x-x̄)²` (minimum-norm solution 0 when all x are
equal) and intercept `ȳ - slope·x̄`.  The projection inverts the fit at
threshold −30; a zero slope makes the numpy float division produce a
non-finite value (no exception), modelled as `none`, which can never lie in
a plausibility band. -/

/-- Sum of a list of rationals. -/
def listSum (l : List ℚ) : ℚ := l.foldl (· + ·) 0

/-- Arithmetic mean (0 for the empty list, which the guards never reach). -/
def listMean (l : List ℚ) : ℚ := listSum l / (l.length : ℚ)

/-- OLS slope of `y` against `x` over the given points. -/
def olsSlope (pts : List (ℚ × ℚ)) : ℚ :=
  let xb := listMean (pts.map Prod.fst)
  let yb := listMean (pts.map Prod.snd)
  let den := listSum (pts.map (fun p => (p.1 - xb) * (p.1 - xb)))
  if den = 0 then 0 else listSum (pts.map (fun p => (p.1 - xb) * (p.2 - yb))) / den

/-- OLS intercept of `y` against `x` over the given points. -/
def olsIntercept (pts : List (ℚ × ℚ)) : ℚ :=
  listMean (pts.map Prod.snd) - olsSlope pts * listMean (pts.map Prod.fst)

/-- Invert the linear fit at degradation threshold −30 (70% SOH):
`(-30 - intercept) / slope`; `none` models the non-finite float produced by
a zero slope (src/Dashboard.py line 648). -/
def predictX70 (pts : List (ℚ × ℚ)) : Option ℚ :=
  if olsSlope pts = 0 then none else some ((-30 - olsIntercept pts) / olsSlope pts)

/-- A projection as displayed: a number, or the literal `"unknown"`. -/
inductive ProjDisplay
| shown (v : ℚ)
| unknown
deriving DecidableEq

/-- Age-based projection text (src/Dashboard.py lines 653–658): months
divided by 12, accepted only within 7–20 years, else `"unknown"`.  The shown
value carries the exact years (the display rounds it to 0 decimals). -/
def yearsProjection (pts : List (ℚ × ℚ)) : ProjDisplay :=
  match predictX70 pts with
  | none => .unknown
  | some x =>
    if 7 ≤ x / 12 ∧ x / 12 ≤ 20 then .shown (x / 12) else .unknown

/-- Odometer-based projection text (src/Dashboard.py lines 686–694):
accepted only within 300000–1500000 km, rounded to the nearest 100000, else
`"unknown"`. -/
def kmProjection (pts : List (ℚ × ℚ)) : ProjDisplay :=
  match predictX70 pts with
  | none => .unknown
  | some x =>
    if 300000 ≤ x ∧ x ≤ 1500000 then .shown ((pyRound (x / 100000) : ℚ) * 100000)
    else .unknown

/-- One record reaching the SOH 70% block for a selected battery group with
the `Age` X-axis active: the sidebar range filters guarantee numeric `Age`
and `Odometer`, degradation may be NaN (dropped by the block's `dropna`;
the block's `replace([inf,-inf], nan)` is void on ℚ records). -/
structure BRec where
  age : ℚ
  odo : ℚ
  deg : Option ℚ
deriving DecidableEq

/-- Records surviving the per-group `dropna(subset=[x_column, "Degradation"])`
paired with their degradation value. -/
def usablePairs (recs : List BRec) : List (BRec × ℚ) :=
  recs.filterMap (fun r => r.deg.map (fun d => (r, d)))

/-- What the SOH 70% block reports for one battery group. -/
inductive GroupResult
| insufficient
| projected (years km : ProjDisplay)
deriving DecidableEq

/-- SOH 70% projection for one battery group with the `Age` X-axis active
(src/Dashboard.py lines 630–710): with at least 2 usable observations the
block fits degradation against age and, since `Odometer` is always a column,
also against odometer; otherwise it reports the insufficient-data message. -/
def sohGroupResult (recs : List BRec) : GroupResult :=
  let cl := usablePairs recs
  if 2 ≤ cl.length then
    .projected (yearsProjection (cl.map (fun p => (p.1.age, p.2))))
               (kmProjection (cl.map (fun p => (p.1.odo, p.2))))
  else .insufficient

/-- The per-group loop (src/Dashboard.py line 631): each selected battery
group gets its own result text; no group aborts the others. -/
def sohBlock (groups : List (String × List BRec)) : List (String × GroupResult) :=
  groups.map (fun g => (g.1, sohGroupResult g.2))

/-! ### DegradationPerX derivation (src/Dashboard.py lines 734–767)

The block drops rows with NaN degradation or NaN denominator (line 751),
computes `Degradation / (denominator / divisor)` (line 763), and drops rows
whose result is infinite (a zero denominator), NaN, or zero (lines 766–767).
The `x>0` filter at line 757 builds a LOCAL `filtered_df` that the aggregate
at lines 772/783 never reads — it keeps using `st.session_state.filtered_df`
— so it is modelled exactly so: it does not constrain the aggregate. -/

/-- X-axis choice of the dashboard. -/
inductive Axis
| age
| odometer
| cycles
deriving DecidableEq

/-- Denominator rescaling (src/Dashboard.py lines 735–746): 1000 for
odometer, 1 otherwise. -/
def divisorFor : Axis → ℚ
| .odometer => 1000
| _ => 1

/-- Record fields as they reach the derivation block (all nullable). -/
structure DRec where
  age : Option ℚ
  odo : Option ℚ
  cyc : Option ℚ
  deg : Option ℚ
deriving DecidableEq

/-- The denominator column selected by the X-axis choice. -/
def denomOf : Axis → DRec → Option ℚ
| .age, r => r.age
| .odometer, r => r.odo
| .cycles, r => r.cyc

/-- `DegradationPerX` of one record (src/Dashboard.py line 763): `none`
models NaN inputs and the non-finite result of a zero denominator. -/
def degPerX (a : Axis) (r : DRec) : Option ℚ :=
  match denomOf a r, r.deg with
  | some x, some d => if x = 0 then none else some (d / (x / divisorFor a))
  | _, _ => none

/-- The records (with their `DegradationPerX`) that enter the group
aggregate (src/Dashboard.py lines 749–767): drop NaN degradation/denominator,
compute the metric, drop non-finite and zero results. -/
def aggregateInput (a : Axis) (rs : List DRec) : List (DRec × ℚ) :=
  let rs1 := rs.filter (fun r => (denomOf a r).isSome && r.deg.isSome)
  let withD := rs1.filterMap (fun r => (degPerX a r).map (fun d => (r, d)))
  withD.filter (fun rd => decide (rd.2 ≠ 0))

/-- The C3 record: negative cycles, valid degradation. -/
def negCycRec : DRec :=
  { age := some 5, odo := some 5000, cyc := some (-100), deg := some (-10) }

/-- The C2 group: two usable observations with constant degradation, giving a
degenerate fit with slope exactly 0. -/
def zeroSlopeRecs : List BRec :=
  [⟨10, 400000, some (-5)⟩, ⟨20, 500000, some (-5)⟩]

/-! ### Telemetry speed filtering (src/pages/01_Performance.py lines 352–357)

After the range filter, `df[df['Speed'].diff().fillna(1) > 0]` keeps the
first row and every row whose speed strictly exceeds the speed of the
IMMEDIATELY PRECEDING ROW OF THE INPUT (not of the kept output): `diff` is
computed once, before any row is dropped. -/

/-- Range filter: keep speeds in [0, 210] (src/pages/01_Performance.py
line 354). -/
def speedRangeFilter (xs : List ℚ) : List ℚ :=
  xs.filter (fun s => decide (0 ≤ s) && decide (s ≤ 210))

/-- Worker for the diff filter: `prev` is the previous INPUT row's speed. -/
def diffKeep (prev : ℚ) : List ℚ → List ℚ
| [] => []
| y :: t => if prev < y then y :: diffKeep y t else diffKeep y t

/-- Model of `df[df['Speed'].diff().fillna(1) > 0]`
(src/pages/01_Performance.py line 357): the first row's NaN diff is filled
with 1, so it is kept. -/
def monotonicSpeedFilter : List ℚ → List ℚ
| [] => []
| x :: rest => x :: diffKeep x rest

/-- Range filter followed by the diff filter, as in the source. -/
def speedPipeline (xs : List ℚ) : List ℚ :=
  monotonicSpeedFilter (speedRangeFilter xs)

/-- Modelled from the amended claim's words, for comparison with the code
(`monotonicSpeedFilter`): keep the first row, and keep any later row iff its
speed strictly exceeds the speed of the row immediately before it in the
input. -/
def specAdjacentKeep (xs : List ℚ) : List ℚ :=
  (xs.zip (none :: xs.map some)).filterMap (fun p =>
    match p.2 with
    | none => some p.1
    | some prev => if prev < p.1 then some p.1 else none)

/-! ### Performance-channel low-power filters
(src/pages/01_Performance.py lines 382–433) -/

/-- Decide whether `needle` occurs as a contiguous substring of `hay`
(the Python `in` test on strings, src/pages/01_Performance.py line 426). -/
def strContains (hay needle : String) : Bool :=
  (List.range (hay.toList.length + 1)).any
    (fun i => ((hay.toList.drop i).take needle.toList.length) == needle.toList)

/-- Row-wise sum of the available motor sub-channels with `skipna=True`
(missing sub-channel contributes 0), paired with the row's speed
(src/pages/01_Performance.py line 395). -/
def rowSums (rows : List (ℚ × Option ℚ × Option ℚ)) : List (ℚ × ℚ) :=
  rows.map (fun r => (r.1, r.2.1.getD 0 + r.2.2.getD 0))

/-- Combined-channel series (src/pages/01_Performance.py lines 391–405):
only the label `"Combined Motor Power [kW]"` gets the `>= 20` filter. -/
def combinedSeries (label : String) (rows : List (ℚ × Option ℚ × Option ℚ)) :
    List (ℚ × ℚ) :=
  if label = "Combined Motor Power [kW]" then
    (rowSums rows).filter (fun p => decide (20 ≤ p.2))
  else rowSums rows

/-- Single-column series (src/pages/01_Performance.py lines 420–433), rows
given as (speed, value) after the `dropna` on the selected columns: only a
column whose name contains `'Battery power'` gets the `>= 40` filter. -/
def singleSeries (ycol : String) (rows : List (ℚ × ℚ)) : List (ℚ × ℚ) :=
  if strContains ycol "Battery power" then rows.filter (fun p => decide (40 ≤ p.2))
  else rows

/-! ## Theorems

Concrete evaluations over ℚ go through the kernel; Batteries seals the `Rat`
arithmetic operations, so they are made semireducible for these proofs. -/

section

attribute [local semireducible] Rat.add Rat.sub Rat.mul Rat.inv

set_option maxRecDepth 100000

/-- C1: For the three records (age 10, deg −5), (age 20, deg −10),
(age 30, deg −15) of one battery group, the ordinary-least-squares fit has
slope −1/2 per month and intercept 0; inverting it at threshold −30 gives a
projected age of 60 months (5 years), which lies outside the 7–20-year
plausibility band, so the group's age projection is reported as unknown
rather than as a number. -/
theorem c1_soh70_end_to_end :
    olsSlope [(10, -5), (20, -10), (30, -15)] = -(1 / 2) ∧
    olsIntercept [(10, -5), (20, -10), (30, -15)] = 0 ∧
    predictX70 [(10, -5), (20, -10), (30, -15)] = some 60 ∧
    yearsProjection [(10, -5), (20, -10), (30, -15)] = .unknown ∧
    sohGroupResult [⟨10, 10, some (-5)⟩, ⟨20, 20, some (-10)⟩, ⟨30, 30, some (-15)⟩] =
      .projected .unknown .unknown := by
  decide

/-- C5: Degradation parsing normalizes the comma decimal separator, prepends
the forced negative sign, and folds an exact `-0.0%` to missing: the raw
cell `"0,0%"` parses to null and the raw cell `"12,5%"` parses to −12.5. -/
theorem c5_degradation_parse :
    degradationCellParse "0,0%" = none ∧
    degradationCellParse "12,5%" = some (-(25 / 2)) := by
  decide

/-- C8: The raw-record parse is a pure function of the raw sheet: running it
twice on identical input yields identical typed datasets, including identical
de-duplicated header names and identical coerced numeric values. -/
theorem c8_parse_deterministic :
    ∀ data : List (List String), fetch_data data = fetch_data data :=
  fun _ => rfl

/-- C2 counterexample: a group with two usable observations and a degenerate
zero-slope fit ((10, −5), (20, −5)) is NOT reported with the
insufficient-data message: the block proceeds, the division by the zero
slope yields a non-finite value, and both projections come out "unknown". -/
theorem c2_zero_slope_not_insufficient :
    sohGroupResult zeroSlopeRecs = .projected .unknown .unknown ∧
    sohGroupResult zeroSlopeRecs ≠ GroupResult.insufficient := by
  decide

/-- C3: with the Cycles X-axis, a record whose X-field is −100 (not strictly
positive) is NOT excluded from the group aggregate: it enters the aggregate
with DegradationPerX = (−10)/(−100/1) = 1/10, because the x>0 filter at
src/Dashboard.py line 757 is applied to a local frame that the aggregate at
lines 772/783 never reads. -/
theorem c3_negative_x_enters_aggregate :
    aggregateInput .cycles [negCycRec] = [(negCycRec, 1 / 10)] ∧
    denomOf .cycles negCycRec = some (-100) ∧
    degPerX .cycles negCycRec = some ((-10) / ((-100) / divisorFor .cycles)) := by
  decide

/-- C4 counterexample: on the header row `["A","A","A_2"]` the walk crashes
with a KeyError instead of producing suffixed unique headers: the second
`"A"` synthesizes the name `"A_2"`, so the third header is found among the
produced names but has no entry in the counts dict. -/
theorem c4_dedup_crash_counterexample :
    fixDuplicateHeaders ["A", "A", "A_2"] = none := by
  decide

/-- C6 counterexample: for input speeds [10, 20, 5, 15, 30] the filter keeps
[10, 20, 15, 30]: the row with speed 15 exceeds the previous INPUT row
(speed 5) but not the previous KEPT row (speed 20), so a row whose speed
does not exceed the previous kept row survives and the kept rows are not
strictly increasing. -/
theorem c6_monotonic_claim_counterexample :
    speedPipeline [10, 20, 5, 15, 30] = [10, 20, 15, 30] ∧
    ¬ List.Chain' (fun a b : ℚ => a < b) (speedPipeline [10, 20, 5, 15, 30]) := by
  refine ⟨by decide, ?_⟩
  intro h
  have h1520 : (20 : ℚ) < 15 := by
    have he : speedPipeline [10, 20, 5, 15, 30] = [10, 20, 15, 30] := by decide
    rw [he] at h
    exact h.tail.rel_head
  norm_num at h1520

/-- C7 counterexample: a sheet whose header has `Username` (and every column
the coercions touch) but NO `Battery` column is not fatal: `fetch_data`
returns a fully typed dataset instead of the empty-result signal. -/
theorem c7_missing_battery_not_fatal :
    isDatasetResult (fetch_data noBatteryData) = true ∧
    "Battery" ∉ noBatteryHeader := by
  decide

/-- C2 (amended): fewer than 2 usable observations yield the per-group
insufficient-data message, and every group of the block gets its own result,
so one group's soft failure never aborts the others; a degenerate fit with
zero slope and at least 2 observations does not crash: the block still
produces a projection result whose age part is "unknown" (the non-finite
quotient of the division by zero can never lie in the plausibility band),
not the insufficient-data message. -/
theorem c2_soh70_guard_amended :
    (∀ recs : List BRec, (usablePairs recs).length < 2 →
        sohGroupResult recs = .insufficient) ∧
    (∀ groups : List (String × List BRec),
        (sohBlock groups).map Prod.fst = groups.map Prod.fst) ∧
    (∀ recs : List BRec, 2 ≤ (usablePairs recs).length →
        olsSlope ((usablePairs recs).map (fun p => (p.1.age, p.2))) = 0 →
        sohGroupResult recs =
          .projected .unknown
            (kmProjection ((usablePairs recs).map (fun p => (p.1.odo, p.2))))) := by
  refine ⟨?_, ?_, ?_⟩
  · intro recs h
    simp only [sohGroupResult]
    rw [if_neg (by omega)]
  · intro groups
    simp [sohBlock]
  · intro recs h hslope
    simp only [sohGroupResult]
    rw [if_pos h]
    simp [yearsProjection, predictX70, hslope]

/-- C2 witness: the amended guarantees at concrete inputs: the empty group is
insufficient, a singleton block maps to one result, and the zero-slope group
is projected with unknown parts. -/
theorem c2_soh70_guard_amended_witness :
    sohGroupResult [] = .insufficient ∧
    (sohBlock [("B1", zeroSlopeRecs)]).map Prod.fst = ["B1"] ∧
    sohGroupResult zeroSlopeRecs = .projected .unknown .unknown :=
  ⟨c2_soh70_guard_amended.1 [] (by decide),
   c2_soh70_guard_amended.2.1 [("B1", zeroSlopeRecs)],
   (c2_soh70_guard_amended.2.2 zeroSlopeRecs (by decide) (by decide)).trans (by decide)⟩

/-- C7 (amended): only the `Username` column is structurally checked: when it
is absent the fetch returns the explicit empty-result signal; a missing
`Battery` column is not detected by the parser, which returns a typed
dataset. -/
theorem c7_missing_column_amended :
    (∀ (header : List String) (dataRows : List (List String)),
        "Username" ∉ header → fetch_data (header :: dataRows) = .emptyResult) ∧
    isDatasetResult (fetch_data noBatteryData) = true := by
  constructor
  · intro header dataRows h
    simp only [fetch_data]
    rw [if_neg h]
  · decide

/-- C7 witness: the amended missing-`Username` branch at a concrete sheet. -/
theorem c7_missing_column_amended_witness :
    fetch_data [["Tesla"], ["a"]] = .emptyResult :=
  c7_missing_column_amended.1 ["Tesla"] [["a"]] (by decide)

/-- Helper for C9: the p-th selected cell is the cell under the FIRST
occurrence of the p-th kept header name. -/
theorem selectCols_getElem (header row : List String) (p : ℕ) (name : String)
    (h : (keptHeader header)[p]? = some name) :
    (selectCols header row)[p]? = some (row.getD (header.indexOf name) "") := by
  unfold selectCols keepIdx
  rw [List.map_map, List.getElem?_map, h]
  rfl

/-- C9: each kept header occurrence resolves its column index with a
first-match lookup, so every two occurrences of the same (duplicated) name
receive identical data — copies of the column under the first occurrence of
that name — and the cells originally under later duplicate columns are
dropped; e.g. header `["A","A"]` with row `["1","2"]` yields `["1","1"]`,
and the value `"2"` occurs nowhere in the output. -/
theorem c9_duplicate_columns_copy_first :
    (∀ (header row : List String) (p q : ℕ) (name : String),
        (keptHeader header)[p]? = some name → (keptHeader header)[q]? = some name →
        (selectCols header row)[p]? = (selectCols header row)[q]?) ∧
    (∀ (header row : List String) (p : ℕ) (name : String),
        (keptHeader header)[p]? = some name →
        (selectCols header row)[p]? = some (row.getD (header.indexOf name) "")) ∧
    (selectCols ["A", "A"] ["1", "2"] = ["1", "1"] ∧
      "2" ∉ selectCols ["A", "A"] ["1", "2"]) := by
  refine ⟨?_, selectCols_getElem, by decide, by decide⟩
  intro header row p q name hp hq
  rw [selectCols_getElem header row p name hp, selectCols_getElem header row q name hq]

/-- C9 witness: the two duplicate `A` columns of the concrete sheet carry the
same data. -/
theorem c9_duplicate_columns_copy_first_witness :
    (selectCols ["A", "A"] ["1", "2"])[0]? = (selectCols ["A", "A"] ["1", "2"])[1]? :=
  c9_duplicate_columns_copy_first.1 ["A", "A"] ["1", "2"] 0 1 "A" (by decide) (by decide)

/-- C10: before charting, the telemetry path drops low-power samples: the
Battery Power channel keeps exactly the rows with value ≥ 40 kW, the
Combined Motor Power channel keeps exactly the summed rows with value
≥ 20 kW, and no such threshold is applied to the combined torque, battery
current, or battery voltage channels. -/
theorem c10_power_thresholds :
    (∀ (rows : List (ℚ × ℚ)) (p : ℚ × ℚ),
        p ∈ singleSeries "Battery power" rows ↔ p ∈ rows ∧ 40 ≤ p.2) ∧
    (∀ (rows : List (ℚ × Option ℚ × Option ℚ)) (p : ℚ × ℚ),
        p ∈ combinedSeries "Combined Motor Power [kW]" rows ↔
          p ∈ rowSums rows ∧ 20 ≤ p.2) ∧
    (∀ rows : List (ℚ × Option ℚ × Option ℚ),
        combinedSeries "Combined Motor Torque [Nm]" rows = rowSums rows) ∧
    (∀ rows : List (ℚ × ℚ), singleSeries "Battery current" rows = rows) ∧
    (∀ rows : List (ℚ × ℚ), singleSeries "Battery voltage" rows = rows) := by
  refine ⟨?_, ?_, ?_, ?_, ?_⟩
  · intro rows p
    have hc : strContains "Battery power" "Battery power" = true := by decide
    simp [singleSeries, hc, List.mem_filter]
  · intro rows p
    simp only [combinedSeries, if_pos rfl]
    simp [List.mem_filter]
  · intro rows
    simp only [combinedSeries]
    rw [if_neg (by decide)]
  · intro rows
    have hc : strContains "Battery current" "Battery power" = false := by decide
    simp [singleSeries, hc]
  · intro rows
    have hc : strContains "Battery voltage" "Battery power" = false := by decide
    simp [singleSeries, hc]

/-- Helper for C6: the one-pass diff filter equals the adjacent-pairs
formulation, where the comparison partner is always the previous INPUT row. -/
theorem diffKeep_eq_spec (t : List ℚ) :
    ∀ p : ℚ, diffKeep p t = (t.zip (some p :: t.map some)).filterMap (fun q =>
      match q.2 with
      | none => some q.1
      | some prev => if prev < q.1 then some q.1 else none) := by
  induction t with
  | nil => intro p; rfl
  | cons y t ih =>
    intro p
    show (if p < y then y :: diffKeep y t else diffKeep y t) = _
    rw [List.zip_cons_cons, List.filterMap_cons]
    by_cases hp : p < y
    · simp only [if_pos hp, ih y, List.map_cons]
    · simp only [if_neg hp, ih y, List.map_cons]

/-- Helper for C6: the speed diff filter keeps the first row and every row
whose speed strictly exceeds the immediately preceding input row's speed. -/
theorem monotonic_eq_spec (xs : List ℚ) : monotonicSpeedFilter xs = specAdjacentKeep xs := by
  cases xs with
  | nil => rfl
  | cons x rest =>
    show x :: diffKeep x rest = _
    unfold specAdjacentKeep
    rw [List.map_cons, List.zip_cons_cons, List.filterMap_cons]
    simp only [diffKeep_eq_spec rest x]

/-- C6 (amended): after the [0, 210] range filter, the normalizer keeps the
first row and drops exactly those rows whose speed does not exceed the speed
of the IMMEDIATELY PRECEDING ROW of the (range-filtered) input — not of the
previous kept row — so the kept rows need not be globally strictly
increasing; on the input speeds [10, 20, 15, 30] the kept speeds are
[10, 20, 30]. -/
theorem c6_adjacent_filter_amended :
    (∀ xs : List ℚ, monotonicSpeedFilter xs = specAdjacentKeep xs) ∧
    speedPipeline [10, 20, 15, 30] = [10, 20, 30] :=
  ⟨monotonic_eq_spec, by decide⟩

/-- Helper for C4: unfolding equation of `lookupCount` on a cons cell. -/
theorem lookupCount_cons (k0 : String) (w : ℕ) (t : List (String × ℕ)) (key : String) :
    lookupCount ((k0, w) :: t) key = if k0 = key then some w else lookupCount t key := rfl

/-- Helper for C4: unfolding equation of `bumpCount` on a cons cell. -/
theorem bumpCount_cons (k0 : String) (w : ℕ) (t : List (String × ℕ)) (key : String) (n : ℕ) :
    bumpCount ((k0, w) :: t) key n =
      if k0 = key then (k0, n) :: t else (k0, w) :: bumpCount t key n := rfl

/-- Helper for C4: lookup passes over a prefix in which the key is absent. -/
theorem lookupCount_append_none (c₁ c₂ : List (String × ℕ)) (k : String)
    (h : lookupCount c₁ k = none) : lookupCount (c₁ ++ c₂) k = lookupCount c₂ k := by
  induction c₁ with
  | nil => rfl
  | cons p t ih =>
    obtain ⟨k0, w⟩ := p
    rw [lookupCount_cons] at h
    rw [List.cons_append, lookupCount_cons]
    by_cases hk : k0 = k
    · rw [if_pos hk] at h
      exact absurd h (by simp)
    · rw [if_neg hk] at h
      rw [if_neg hk]
      exact ih h

/-- Helper for C4: lookup stops at a hit inside the prefix. -/
theorem lookupCount_append_some (c₁ c₂ : List (String × ℕ)) (k : String) (v : ℕ)
    (h : lookupCount c₁ k = some v) : lookupCount (c₁ ++ c₂) k = some v := by
  induction c₁ with
  | nil => exact absurd h (by simp [lookupCount])
  | cons p t ih =>
    obtain ⟨k0, w⟩ := p
    rw [lookupCount_cons] at h
    rw [List.cons_append, lookupCount_cons]
    by_cases hk : k0 = k
    · rw [if_pos hk] at h
      rw [if_pos hk]
      exact h
    · rw [if_neg hk] at h
      rw [if_neg hk]
      exact ih h

/-- Helper for C4: updating an existing key makes lookup return the new
value. -/
theorem lookupCount_bump_self (c : List (String × ℕ)) (k : String) (v : ℕ)
    (h : (lookupCount c k).isSome) : lookupCount (bumpCount c k v) k = some v := by
  induction c with
  | nil => simp [lookupCount] at h
  | cons p t ih =>
    obtain ⟨k0, w⟩ := p
    rw [lookupCount_cons] at h
    rw [bumpCount_cons]
    by_cases hk : k0 = k
    · rw [if_pos hk, lookupCount_cons, if_pos hk]
    · rw [if_neg hk] at h
      rw [if_neg hk, lookupCount_cons, if_neg hk]
      exact ih h

/-- Helper for C4: updating one key leaves lookups of other keys unchanged. -/
theorem lookupCount_bump_other (c : List (String × ℕ)) (k k' : String) (v : ℕ)
    (h : k' ≠ k) : lookupCount (bumpCount c k v) k' = lookupCount c k' := by
  induction c with
  | nil => rfl
  | cons p t ih =>
    obtain ⟨k0, w⟩ := p
    rw [bumpCount_cons]
    by_cases hk : k0 = k
    · have hne : ¬ k0 = k' := by
        rw [hk]
        exact fun he => h he.symm
      rw [if_pos hk, lookupCount_cons, if_neg hne, lookupCount_cons, if_neg hne]
    · rw [if_neg hk, lookupCount_cons, lookupCount_cons]
      by_cases hk' : k0 = k'
      · rw [if_pos hk', if_pos hk']
      · rw [if_neg hk', if_neg hk']
        exact ih

/-- Helper for C4: unfolding equation of `dedupRun` on a cons cell. -/
theorem dedupRun_cons (st : List String × List (String × ℕ)) (col : String)
    (rest : List String) :
    dedupRun st (col :: rest) =
      match dedupStep st col with
      | none => none
      | some st' => dedupRun st' rest := rfl

/-- Helper for C4: a crashing step aborts the whole run. -/
theorem dedupRun_cons_none (st : List String × List (String × ℕ)) (col : String)
    (rest : List String) (h : dedupStep st col = none) :
    dedupRun st (col :: rest) = none := by
  rw [dedupRun_cons, h]

/-- Helper for C4: a successful step continues the run from the new state. -/
theorem dedupRun_cons_some (st st' : List String × List (String × ℕ)) (col : String)
    (rest : List String) (h : dedupStep st col = some st') :
    dedupRun st (col :: rest) = dedupRun st' rest := by
  rw [dedupRun_cons, h]

/-- Helper for C4: the step on a name already among the produced headers,
with a counts entry, appends the suffixed name and bumps the count. -/
theorem dedupStep_mem_some (u : List String) (c : List (String × ℕ)) (col : String) (n : ℕ)
    (hmem : pyStrip col ∈ u) (hl : lookupCount c (pyStrip col) = some n) :
    dedupStep (u, c) col =
      some (u ++ [pyStrip col ++ "_" ++ toString (n + 1)],
        bumpCount c (pyStrip col) (n + 1)) := by
  unfold dedupStep
  rw [if_pos hmem, hl]

/-- Helper for C4: the step on a produced-but-uncounted name crashes
(KeyError). -/
theorem dedupStep_mem_none (u : List String) (c : List (String × ℕ)) (col : String)
    (hmem : pyStrip col ∈ u) (hl : lookupCount c (pyStrip col) = none) :
    dedupStep (u, c) col = none := by
  unfold dedupStep
  rw [if_pos hmem, hl]

/-- Helper for C4: the step on a fresh name appends it unchanged and starts
its count at 1. -/
theorem dedupStep_fresh (u : List String) (c : List (String × ℕ)) (col : String)
    (hmem : pyStrip col ∉ u) :
    dedupStep (u, c) col = some (u ++ [pyStrip col], c ++ [(pyStrip col, 1)]) := by
  unfold dedupStep
  rw [if_neg hmem]

/-- Helper for C4: unfolding equation of `specFrom` on a cons cell. -/
theorem specFrom_cons (seen : List String) (t : List String) (name : String) :
    specFrom seen (name :: t) =
      (if seen.count name = 0 then name else name ++ "_" ++ toString (seen.count name + 1)) ::
        specFrom (seen ++ [name]) t := rfl

/-- Helper for C4, the loop invariant: along a successful run, the produced
headers extend exactly as the first-occurrence/suffix rule prescribes, where
`seen` holds the stripped names already processed, every seen name is among
the produced headers, and the counts dict maps each seen name to its number
of occurrences so far. -/
theorem dedupRun_spec (rest : List String) :
    ∀ (u : List String) (c : List (String × ℕ)) (seen : List String),
    (∀ s, s ∈ seen → s ∈ u) →
    (∀ name, lookupCount c name =
        if seen.count name = 0 then none else some (seen.count name)) →
    ∀ st, dedupRun (u, c) rest = some st →
    st.1 = u ++ specFrom seen (rest.map pyStrip) := by
  induction rest with
  | nil =>
    intro u c seen _ _ st hrun
    injection hrun with h
    subst h
    simp [specFrom]
  | cons col rest ih =>
    intro u c seen hseen hc st hrun
    rw [List.map_cons, specFrom_cons]
    have hcount := hc (pyStrip col)
    by_cases hmem : pyStrip col ∈ u
    · by_cases h0 : List.count (pyStrip col) seen = 0
      · rw [if_pos h0] at hcount
        rw [dedupRun_cons_none _ _ _ (dedupStep_mem_none u c col hmem hcount)] at hrun
        exact absurd hrun (by simp)
      · rw [if_neg h0] at hcount
        rw [dedupRun_cons_some _ _ _ _ (dedupStep_mem_some u c col _ hmem hcount)] at hrun
        have hres := ih _ _ (seen ++ [pyStrip col]) ?_ ?_ st hrun
        · rw [hres, if_neg h0, List.append_assoc, List.singleton_append]
        · intro s hs
          rcases List.mem_append.mp hs with hs | hs
          · exact List.mem_append_left _ (hseen s hs)
          · rw [List.mem_singleton] at hs
            subst hs
            exact List.mem_append_left _ hmem
        · intro name
          by_cases hn : name = pyStrip col
          · subst hn
            rw [lookupCount_bump_self c _ _ (by rw [hcount]; rfl)]
            have hcnt : (seen ++ [pyStrip col]).count (pyStrip col) =
                List.count (pyStrip col) seen + 1 := by
              simp
            rw [hcnt, if_neg (by omega)]
          · rw [lookupCount_bump_other c _ name _ hn]
            have h1 : List.count name [pyStrip col] = 0 := by
              rw [List.count_eq_zero]
              simp [hn]
            rw [List.count_append, h1, Nat.add_zero]
            exact hc name
    · have htseen : pyStrip col ∉ seen := fun hs => hmem (hseen _ hs)
      have h0 : List.count (pyStrip col) seen = 0 := List.count_eq_zero.mpr htseen
      rw [dedupRun_cons_some _ _ _ _ (dedupStep_fresh u c col hmem)] at hrun
      have hres := ih _ _ (seen ++ [pyStrip col]) ?_ ?_ st hrun
      · rw [hres, if_pos h0, List.append_assoc, List.singleton_append]
      · intro s hs
        rcases List.mem_append.mp hs with hs | hs
        · exact List.mem_append_left _ (hseen s hs)
        · rw [List.mem_singleton] at hs
          subst hs
          exact List.mem_append_right _ (List.mem_singleton.mpr rfl)
      · intro name
        by_cases hn : name = pyStrip col
        · subst hn
          rw [if_pos h0] at hcount
          rw [lookupCount_append_none c _ (pyStrip col) hcount]
          have hcnt : (seen ++ [pyStrip col]).count (pyStrip col) = 1 := by
            rw [List.count_append, h0]
            simp
          rw [hcnt, lookupCount_cons, if_pos rfl]
          norm_num
        · have h1 : List.count name [pyStrip col] = 0 := by
            rw [List.count_eq_zero]
            simp [hn]
          rw [List.count_append, h1, Nat.add_zero]
          have hsingle : lookupCount [(pyStrip col, 1)] name = none := by
            rw [lookupCount_cons, if_neg (fun he => hn he.symm)]
            rfl
          cases hcv : lookupCount c name with
          | none =>
            rw [lookupCount_append_none c _ name hcv, hsingle]
            have hcn := hc name
            rw [hcv] at hcn
            exact hcn
          | some v =>
            rw [lookupCount_append_some c _ name v hcv]
            rw [← hcv]
            exact hc name

/-- C4 (amended): whenever the walk completes without the KeyError crash (it
crashes exactly when a header equals a name synthesized earlier in the walk),
the de-duplication follows the rule: each header maps to its stripped name if
it is that name's first occurrence, and to the name suffixed with `_k+1` for
its k-th further occurrence, in order of appearance; `["A","B","A","A"]`
yields `["A","B","A_2","A_3"]`; and the walk is a pure function of the
header row, so re-running on identical input yields identical suffixes. -/
theorem c4_dedup_amended :
    (∀ hs out, fixDuplicateHeaders hs = some out → out = specDedup hs) ∧
    fixDuplicateHeaders ["A", "B", "A", "A"] = some ["A", "B", "A_2", "A_3"] ∧
    (∀ hs, fixDuplicateHeaders hs = fixDuplicateHeaders hs) := by
  refine ⟨?_, by decide, fun _ => rfl⟩
  intro hs out h
  unfold fixDuplicateHeaders at h
  cases hrun : dedupRun ([], []) hs with
  | none =>
    rw [hrun] at h
    exact absurd h (by simp)
  | some st =>
    rw [hrun] at h
    have hspec := dedupRun_spec hs [] [] [] (by simp) (by intro name; simp [lookupCount]) st hrun
    have hout : st.1 = out := by
      injection h
    rw [← hout, hspec, List.nil_append]
    rfl

/-- C4 witness: the crash-free rule applied at the concrete header row of the
claim. -/
theorem c4_dedup_amended_witness :
    ["A", "B", "A_2", "A_3"] = specDedup ["A", "B", "A", "A"] :=
  c4_dedup_amended.1 ["A", "B", "A", "A"] ["A", "B", "A_2", "A_3"] c4_dedup_amended.2.1

end
